import Mathlib

/-!
Verification of the Loan-RAG backend (`src/backend/ai_pipeline.py`,
`src/backend/main.py`).

The Python code is embedded shallowly:

* retrieved document chunks (`langchain` `Document`s) become the `Doc`
  structure holding `page_content` and the `source` metadata entry;
* the vector retriever is an oracle `Retriever` mapping a query string and a
  fetch count to `Except String (List Doc)` — `.error` models the retriever
  call throwing;
* Python `float` values are modelled over `ℚ`; `round(x, 2)` (banker's
  rounding) becomes `round2`, which rounds half to even;
* a request's `form_data` dict becomes an association list
  `List (String × Val)` where `Val` covers the JSON values the code
  manipulates (null, string, number); Python truthiness is `truthy` and the
  builtin `float(·)` coercion is `pyFloat`, which can fail.
-/

set_option maxRecDepth 2000

namespace LoanRag

/-- A retrieved document chunk: `page_content` plus the `source` entry of its
metadata (`getattr(doc, "page_content", "")`, `metadata.get("source", "")`). -/
structure Doc where
  page_content : String
  source : String
deriving DecidableEq, Repr

/-- Oracle for `vectorstore.as_retriever(search_kwargs={"k": k}).invoke(query)`:
`.error` models the call raising an exception. -/
def Retriever : Type := String → Nat → Except String (List Doc)

/-- Python slice `s[:n]`: the first `n` code points of the string. -/
def pyTake (s : String) (n : Nat) : String :=
  String.mk (s.data.take n)

/-- Deduplication key of `enhanced_retrieve_docs`:
`page_content[:300] + source` (the argument of `hash(...)`; the integer hash
is modelled by the string itself). -/
def dedupKey (d : Doc) : String :=
  pyTake d.page_content 300 ++ d.source

/-- The inner per-document loop of `enhanced_retrieve_docs`: append each doc
whose key is unseen, record its key. -/
def addDocs (acc : List Doc × List String) (docs : List Doc) : List Doc × List String :=
  docs.foldl
    (fun p d => if dedupKey d ∈ p.2 then p else (p.1 ++ [d], dedupKey d :: p.2))
    acc

/-- One iteration of the per-query loop: a raised retriever error is logged and
skipped (`except Exception: continue`), a successful result feeds `addDocs`. -/
def queryStep (retr : Retriever) (k : Nat) (acc : List Doc × List String)
    (q : String) : List Doc × List String :=
  match retr q k with
  | .error _ => acc
  | .ok docs => addDocs acc docs

/-- The accumulated `all_docs` list after the whole per-query loop of
`enhanced_retrieve_docs`. -/
def runQueries (retr : Retriever) (queries : List String) (k : Nat) : List Doc :=
  (queries.foldl (queryStep retr k) ([], [])).1

/-- `enhanced_retrieve_docs(queries, k_per_query)`: run all queries with
cross-query deduplication, then `return all_docs[:30]`. -/
def enhanced_retrieve_docs (retr : Retriever) (queries : List String)
    (k : Nat) : List Doc :=
  (runQueries retr queries k).take 30

/-- Per-query successful results (a raised query contributes `[]`). -/
def okDocs (retr : Retriever) (k : Nat) (q : String) : List Doc :=
  match retr q k with
  | .ok docs => docs
  | .error _ => []

/-- All chunks streamed to the deduplicator, in query order then rank order. -/
def flattenResults (retr : Retriever) (queries : List String) (k : Nat) : List Doc :=
  (queries.map (okDocs retr k)).flatten

/-- Reference deduplicator: keep a doc iff its key is not in `seen`, threading
the seen set left to right. -/
def dedup : List Doc → List String → List Doc
  | [], _ => []
  | d :: ds, seen =>
    if dedupKey d ∈ seen then dedup ds seen
    else d :: dedup ds (dedupKey d :: seen)

/-- Seen-key set after feeding a doc list through the deduplicator. -/
def seenAfter : List Doc → List String → List String
  | [], seen => seen
  | d :: ds, seen =>
    if dedupKey d ∈ seen then seenAfter ds seen
    else seenAfter ds (dedupKey d :: seen)

theorem addDocs_eq (docs : List Doc) (acc : List Doc) (seen : List String) :
    addDocs (acc, seen) docs = (acc ++ dedup docs seen, seenAfter docs seen) := by
  induction docs generalizing acc seen with
  | nil => simp [addDocs, dedup, seenAfter]
  | cons d ds ih =>
    by_cases h : dedupKey d ∈ seen
    · simpa [addDocs, dedup, seenAfter, h] using ih acc seen
    · have := ih (acc ++ [d]) (dedupKey d :: seen)
      simp only [addDocs, List.foldl_cons, h, if_neg h] at this ⊢
      simp [dedup, seenAfter, h, this]

theorem dedup_append (xs ys : List Doc) (seen : List String) :
    dedup (xs ++ ys) seen = dedup xs seen ++ dedup ys (seenAfter xs seen) := by
  induction xs generalizing seen with
  | nil => simp [dedup, seenAfter]
  | cons d ds ih =>
    by_cases h : dedupKey d ∈ seen <;>
      simp [dedup, seenAfter, h, ih]

theorem seenAfter_append (xs ys : List Doc) (seen : List String) :
    seenAfter (xs ++ ys) seen = seenAfter ys (seenAfter xs seen) := by
  induction xs generalizing seen with
  | nil => simp [seenAfter]
  | cons d ds ih =>
    by_cases h : dedupKey d ∈ seen <;>
      simp [seenAfter, h, ih]

theorem foldl_queryStep_eq (retr : Retriever) (k : Nat) (queries : List String)
    (acc : List Doc) (seen : List String) :
    queries.foldl (queryStep retr k) (acc, seen) =
      (acc ++ dedup (flattenResults retr queries k) seen,
       seenAfter (flattenResults retr queries k) seen) := by
  induction queries generalizing acc seen with
  | nil => simp [flattenResults, dedup, seenAfter]
  | cons q qs ih =>
    have hstep : queryStep retr k (acc, seen) q =
        (acc ++ dedup (okDocs retr k q) seen, seenAfter (okDocs retr k q) seen) := by
      cases h : retr q k with
      | error e => simp [queryStep, okDocs, h, dedup, seenAfter]
      | ok docs => simp [queryStep, okDocs, h, addDocs_eq]
    have hflat : flattenResults retr (q :: qs) k =
        okDocs retr k q ++ flattenResults retr qs k := by
      simp [flattenResults]
    rw [List.foldl_cons, hstep, ih, hflat, dedup_append, seenAfter_append,
      List.append_assoc]

/-- `all_docs` is the deduplication of the flattened per-query results. -/
theorem runQueries_eq_dedup (retr : Retriever) (queries : List String) (k : Nat) :
    runQueries retr queries k = dedup (flattenResults retr queries k) [] := by
  simp [runQueries, foldl_queryStep_eq]

/-- Occurrences of one key in the deduplicated list: none if the key was
already seen, otherwise exactly the first occurrence from the input stream. -/
theorem filter_dedup (kk : String) (l : List Doc) (seen : List String) :
    (dedup l seen).filter (fun d => decide (dedupKey d = kk)) =
      if kk ∈ seen then []
      else (l.filter (fun d => decide (dedupKey d = kk))).take 1 := by
  induction l generalizing seen with
  | nil => simp [dedup]
  | cons d ds ih =>
    by_cases hd : dedupKey d ∈ seen
    · rw [dedup, if_pos hd, ih]
      by_cases hkk : kk ∈ seen
      · simp [hkk]
      · have hne : ¬ dedupKey d = kk := fun h => hkk (h ▸ hd)
        simp [hkk, List.filter_cons, hne]
    · rw [dedup, if_neg hd]
      by_cases hdk : dedupKey d = kk
      · subst hdk
        have hthis := ih (dedupKey d :: seen)
        rw [if_pos (List.mem_cons_self _ _)] at hthis
        simp [List.filter_cons, hd, hthis]
      · rw [List.filter_cons, if_neg (by simp [hdk]), ih]
        by_cases hkk : kk ∈ seen
        · simp [hkk, hdk]
        · have hne : ¬ kk = dedupKey d := fun h => hdk h.symm
          simp [hkk, hne, List.filter_cons, hdk]

theorem mem_flattenResults (retr : Retriever) (queries : List String) (k : Nat)
    (i : Nat) (hi : i < queries.length) (d : Doc)
    (hd : d ∈ okDocs retr k (queries.get ⟨i, hi⟩)) :
    d ∈ flattenResults retr queries k := by
  apply List.mem_flatten.mpr
  exact ⟨okDocs retr k (queries.get ⟨i, hi⟩),
    List.mem_map.mpr ⟨queries.get ⟨i, hi⟩, List.get_mem queries i hi, rfl⟩, hd⟩

/-- C1: in `enhanced_retrieve_docs`, the dedup key of a chunk is built from the
first 300 characters of its content plus its source; a chunk whose key was
already seen — in this query or any earlier one of the batch — is discarded and
a fresh-keyed chunk appended, so when two queries' results share a chunk (same
content-prefix + source key) the accumulated merged list contains exactly one
chunk with that key, namely the first appearance in query-then-rank order. -/
theorem enhanced_retrieve_dedup_once (retr : Retriever) (queries : List String)
    (k : Nat) (i j : Nat) (hi : i < queries.length) (hj : j < queries.length)
    (d1 d2 : Doc)
    (h1 : d1 ∈ okDocs retr k (queries.get ⟨i, hi⟩))
    (h2 : d2 ∈ okDocs retr k (queries.get ⟨j, hj⟩))
    (hk : dedupKey d1 = dedupKey d2) :
    (runQueries retr queries k).filter (fun d => decide (dedupKey d = dedupKey d1)) =
      ((flattenResults retr queries k).filter
        (fun d => decide (dedupKey d = dedupKey d1))).take 1 ∧
    (runQueries retr queries k).countP (fun d => decide (dedupKey d = dedupKey d1)) = 1 := by
  have hmem : d1 ∈ flattenResults retr queries k :=
    mem_flattenResults retr queries k i hi d1 h1
  have hfilter : (runQueries retr queries k).filter
      (fun d => decide (dedupKey d = dedupKey d1)) =
      ((flattenResults retr queries k).filter
        (fun d => decide (dedupKey d = dedupKey d1))).take 1 := by
    rw [runQueries_eq_dedup, filter_dedup]
    simp
  refine ⟨hfilter, ?_⟩
  rw [List.countP_eq_length_filter, hfilter]
  have hne : (flattenResults retr queries k).filter
      (fun d => decide (dedupKey d = dedupKey d1)) ≠ [] := by
    intro h
    have : d1 ∈ (flattenResults retr queries k).filter
        (fun d => decide (dedupKey d = dedupKey d1)) :=
      List.mem_filter.mpr ⟨hmem, by simp⟩
    simp [h] at this
  cases hcase : (flattenResults retr queries k).filter
      (fun d => decide (dedupKey d = dedupKey d1)) with
  | nil => exact absurd hcase hne
  | cons a as => simp

/-- Witness for `enhanced_retrieve_dedup_once`: two queries both return the
chunk ⟨"A", "s"⟩; the merged list keeps exactly one copy. -/
theorem enhanced_retrieve_dedup_once_witness :
    (runQueries
        (fun q _ => if q = "q1" then .ok [⟨"A", "s"⟩, ⟨"B", "s"⟩] else .ok [⟨"A", "s"⟩])
        ["q1", "q2"] 4).countP
      (fun d => decide (dedupKey d = dedupKey ⟨"A", "s"⟩)) = 1 :=
  (enhanced_retrieve_dedup_once
    (fun q _ => if q = "q1" then .ok [⟨"A", "s"⟩, ⟨"B", "s"⟩] else .ok [⟨"A", "s"⟩])
    ["q1", "q2"] 4 0 1 (by decide) (by decide) ⟨"A", "s"⟩ ⟨"A", "s"⟩
    (by simp [okDocs]) (by simp [okDocs]) rfl).2

/-- C2: for every query set and per-query k, `enhanced_retrieve_docs` returns
at most 30 chunks, and its value is exactly the first 30 entries of the
accumulated deduplicated sequence (which streams chunks in query order and
within-query rank order). -/
theorem enhanced_retrieve_cap (retr : Retriever) (queries : List String) (k : Nat) :
    (enhanced_retrieve_docs retr queries k).length ≤ 30 ∧
    enhanced_retrieve_docs retr queries k =
      (dedup (flattenResults retr queries k) []).take 30 := by
  constructor
  · simp [enhanced_retrieve_docs]
  · rw [enhanced_retrieve_docs, runQueries_eq_dedup]

/-- Replace every raising query by one that returns no chunks. -/
def okify (retr : Retriever) : Retriever :=
  fun q k =>
    match retr q k with
    | .error _ => .ok []
    | .ok docs => .ok docs

theorem foldl_queryStep_okify (retr : Retriever) (k : Nat) (queries : List String)
    (acc : List Doc × List String) :
    queries.foldl (queryStep retr k) acc =
      queries.foldl (queryStep (okify retr) k) acc := by
  induction queries generalizing acc with
  | nil => rfl
  | cons q qs ih =>
    have hstep : queryStep retr k acc q = queryStep (okify retr) k acc q := by
      cases h : retr q k with
      | error e => simp [queryStep, okify, h, addDocs]
      | ok docs => simp [queryStep, okify, h]
    rw [List.foldl_cons, List.foldl_cons, hstep, ih]

/-- C3: `enhanced_retrieve_docs` never raises. An empty query set yields `[]`;
a query whose retriever call throws contributes zero chunks, the batch
continuing exactly as if that query had returned no documents; and when every
query fails the result is the empty sequence. -/
theorem enhanced_retrieve_isolation (retr : Retriever) (queries : List String)
    (k : Nat) :
    enhanced_retrieve_docs retr [] k = [] ∧
    enhanced_retrieve_docs retr queries k =
      enhanced_retrieve_docs (okify retr) queries k ∧
    ((∀ q ∈ queries, ∃ e, retr q k = .error e) →
      enhanced_retrieve_docs retr queries k = []) := by
  refine ⟨rfl, ?_, ?_⟩
  · rw [enhanced_retrieve_docs, enhanced_retrieve_docs, runQueries, runQueries,
      foldl_queryStep_okify]
  · intro hall
    have : ∀ q ∈ queries, okDocs retr k q = [] := by
      intro q hq
      obtain ⟨e, he⟩ := hall q hq
      simp [okDocs, he]
    have hflat : flattenResults retr queries k = [] := by
      rw [flattenResults, List.flatten_eq_nil_iff]
      intro l hl
      obtain ⟨q, hq, rfl⟩ := List.mem_map.mp hl
      exact this q hq
    rw [enhanced_retrieve_docs, runQueries_eq_dedup, hflat]
    rfl

/-- Witness for `enhanced_retrieve_isolation`: five queries, query index 2
throws; the result merges the chunks of queries 1, 3, 4, 5. -/
theorem enhanced_retrieve_isolation_witness :
    enhanced_retrieve_docs
        (fun q _ => if q = "q2" then .error "boom" else .ok [⟨q, "s"⟩])
        ["q1", "q2", "q3", "q4", "q5"] 4 =
      enhanced_retrieve_docs
        (okify (fun q _ => if q = "q2" then .error "boom" else .ok [⟨q, "s"⟩]))
        ["q1", "q2", "q3", "q4", "q5"] 4 ∧
    enhanced_retrieve_docs
        (fun (_ : String) (_ : Nat) => (.error "down" : Except String (List Doc)))
        ["a", "b"] 4 = [] :=
  ⟨(enhanced_retrieve_isolation
      (fun q _ => if q = "q2" then .error "boom" else .ok [⟨q, "s"⟩])
      ["q1", "q2", "q3", "q4", "q5"] 4).2.1,
   (enhanced_retrieve_isolation
      (fun (_ : String) (_ : Nat) => (.error "down" : Except String (List Doc)))
      ["a", "b"] 4).2.2
     (by intro q hq; exact ⟨"down", rfl⟩)⟩

/-- C10: the dedup key is the plain concatenation of the 300-character content
prefix and the source with no separator, so two chunks whose concatenations
coincide are conflated — only the first is kept — even when their
(prefix, source) pairs differ, as when the content/source boundary shifts. -/
theorem dedup_key_concat_conflates (d1 d2 : Doc)
    (h : dedupKey d1 = dedupKey d2) :
    dedupKey d1 = pyTake d1.page_content 300 ++ d1.source ∧
    dedup [d1, d2] [] = [d1] ∧
    dedupKey (⟨"abc", "d"⟩ : Doc) = dedupKey (⟨"ab", "cd"⟩ : Doc) ∧
    (⟨"abc", "d"⟩ : Doc) ≠ (⟨"ab", "cd"⟩ : Doc) := by
  refine ⟨rfl, ?_, by decide, by decide⟩
  simp [dedup, h]

/-- Witness for `dedup_key_concat_conflates`: the boundary-shifted pair
⟨"abc", "d"⟩ / ⟨"ab", "cd"⟩ is conflated and only the first copy kept. -/
theorem dedup_key_concat_conflates_witness :
    dedup [⟨"abc", "d"⟩, ⟨"ab", "cd"⟩] [] = [(⟨"abc", "d"⟩ : Doc)] :=
  (dedup_key_concat_conflates ⟨"abc", "d"⟩ ⟨"ab", "cd"⟩ (by decide)).2.1

/-! ### Form-data values and Python coercions (`main.py`) -/

/-- A `form_data` value as the metric code sees it: JSON null / absent,
a string, or a number (Python numbers over `ℚ`). -/
inductive Val where
  | null : Val
  | str : String → Val
  | num : ℚ → Val
deriving DecidableEq, Repr

/-- Python truthiness of a form-data value: `None`, `""` and `0` are falsy. -/
def truthy : Val → Bool
  | .null => false
  | .str s => !(s == "")
  | .num q => !(q == 0)

/-- Python whitespace stripped by `str.strip()` / `float(str)`. -/
def isPyWs (c : Char) : Bool :=
  c == ' ' || c == '\t' || c == '\n' || c == '\r' || c == '\x0b' || c == '\x0c'

/-- Python `str.strip()`. -/
def pyStrip (s : String) : String :=
  String.mk (((s.data.dropWhile isPyWs).reverse.dropWhile isPyWs).reverse)

/-- Python `str.lower()` (ASCII case folding suffices for this repository). -/
def pyLower (s : String) : String :=
  String.mk (s.data.map Char.toLower)

/-- Split a character list at every occurrence of `sep` (Python `str.split`). -/
def splitOnCharAux (sep : Char) : List Char → List Char → List (List Char)
  | [], acc => [acc.reverse]
  | c :: cs, acc =>
    if c == sep then acc.reverse :: splitOnCharAux sep cs []
    else splitOnCharAux sep cs (c :: acc)

/-- Python `s.split(sep)` for a one-character separator. -/
def pySplit (s : String) (sep : Char) : List String :=
  (splitOnCharAux sep s.data []).map String.mk

/-- Accumulate a digit run: value and digit count, `none` on a non-digit. -/
def readDigits (cs : List Char) : Option (Nat × Nat) :=
  cs.foldl
    (fun acc c =>
      match acc with
      | none => none
      | some (v, n) => if c.isDigit then some (v * 10 + (c.toNat - 48), n + 1) else none)
    (some (0, 0))

/-- Decimal fragment of Python `float(str)`: surrounding whitespace, an
optional sign, digits with at most one decimal point and at least one digit.
Scientific notation and the special values never occur in this repository's
form data and are rejected like any other non-numeric text. -/
def parseDecimal (s : String) : Option ℚ :=
  let t := ((s.data.dropWhile isPyWs).reverse.dropWhile isPyWs).reverse
  let signed : Int × List Char :=
    match t with
    | '+' :: r => (1, r)
    | '-' :: r => (-1, r)
    | r => (1, r)
  match splitOnCharAux '.' signed.2 [] with
  | [whole] =>
    match readDigits whole with
    | some (v, n) => if n = 0 then none else some ((signed.1 : ℚ) * (v : ℚ))
    | none => none
  | [whole, frac] =>
    match readDigits whole, readDigits frac with
    | some (vw, nw), some (vf, nf) =>
      if nw + nf = 0 then none
      else some ((signed.1 : ℚ) * ((vw : ℚ) + (vf : ℚ) / (10 : ℚ) ^ nf))
    | _, _ => none
  | _ => none

/-- Python builtin `float(·)` on a form-data value: numbers pass through,
strings are parsed (`ValueError` on failure), `None` is a `TypeError`. -/
def pyFloat : Val → Except String ℚ
  | .null => .error "TypeError"
  | .num q => .ok q
  | .str s =>
    match parseDecimal s with
    | some q => .ok q
    | none => .error "ValueError"

/-- Python `a or b or ... or 0`: the first truthy value, else the literal 0. -/
def firstTruthy : List Val → Val
  | [] => .num 0
  | v :: vs => if truthy v then v else firstTruthy vs

/-- A request's `form_data` dict. -/
def FormData : Type := List (String × Val)

/-- `form_data.get(key)` (default `None`). -/
def fdGet (fd : FormData) (key : String) : Val :=
  (List.lookup key fd).getD Val.null

/-- `form_data.get(key, default)`. -/
def fdGetD (fd : FormData) (key : String) (dflt : Val) : Val :=
  (List.lookup key fd).getD dflt

/-- Python `str(·)` of a form-data value (number rendering is never exercised
by the scenarios under verification). -/
def pyStr : Val → String
  | .null => "None"
  | .str s => s
  | .num q => toString q

/-- `needle in hay` on strings: `leadsWith n h` is `h` starting with `n`. -/
def leadsWith : List Char → List Char → Bool
  | [], _ => true
  | _ :: _, [] => false
  | a :: as, b :: bs => (a == b) && leadsWith as bs

/-- Substring containment on character lists. -/
def containsSeq (needle : List Char) : List Char → Bool
  | [] => needle.isEmpty
  | c :: cs => leadsWith needle (c :: cs) || containsSeq needle cs

/-- Python `needle in hay` for strings. -/
def pyIn (needle hay : String) : Bool :=
  containsSeq needle.data hay.data

/-- `float(form_data.get(k1) or form_data.get(k2) or ... or 0)`:
first present truthy value wins, then coerced by `float`. -/
def resolveChain (fd : FormData) (keys : List String) : Except String ℚ :=
  pyFloat (firstTruthy (keys.map (fdGet fd)))

/-! ### The metric calculator of `ask_structured` (`main.py`) -/

/-- Floor of a rational, computed by floored integer division. -/
def ratFloor (q : ℚ) : Int :=
  Int.fdiv q.num (q.den : Int)

/-- Round to the nearest integer, halves to the even neighbour — Python's
builtin `round`. -/
def roundHalfEven (q : ℚ) : Int :=
  if q - (ratFloor q : ℚ) < 1 / 2 then ratFloor q
  else if 1 / 2 < q - (ratFloor q : ℚ) then ratFloor q + 1
  else if ratFloor q % 2 = 0 then ratFloor q else ratFloor q + 1

/-- Python `round(x, 2)`. -/
def round2 (q : ℚ) : ℚ :=
  ((roundHalfEven (q * 100) : Int) : ℚ) / 100

/-- `calculate_lvr(loan_amount, property_value)` from `main.py`. -/
def calculate_lvr (loan_amount property_value : ℚ) : ℚ :=
  if property_value ≤ 0 then 0
  else round2 (loan_amount / property_value * 100)

/-- `calculate_dti(total_debt, annual_income)` from `main.py`. -/
def calculate_dti (total_debt annual_income : ℚ) : ℚ :=
  if annual_income ≤ 0 then 0
  else round2 (total_debt / annual_income)

/-- The metrics `ask_structured` feeds into the prompt. -/
structure Metrics where
  loan_amount : ℚ
  property_value : ℚ
  annual_income : ℚ
  total_debt : ℚ
  lvr : ℚ
  dti : ℚ
deriving DecidableEq, Repr

deriving instance DecidableEq for Except

/-- Propagate a raised exception, continue otherwise. -/
def ebind (x : Except String ℚ) (f : ℚ → Except String Metrics) : Except String Metrics :=
  match x with
  | .error e => .error e
  | .ok v => f v

/-- Same, for an intermediate rational result. -/
def ebindQ (x : Except String ℚ) (f : ℚ → Except String ℚ) : Except String ℚ :=
  match x with
  | .error e => .error e
  | .ok v => f v

/-- `form_type_val in ["refinance", "cashout_refinance"]`. -/
def refiFormTypes : List String := ["refinance", "cashout_refinance"]

/-- `str(form_data.get("reason_for_refinance", "")).lower()`. -/
def reasonText (fd : FormData) : String :=
  pyLower (pyStr (fdGetD fd "reason_for_refinance" (.str "")))

/-- `"debt" in reason or "consolidat" in reason`. -/
def is_consolidating (fd : FormData) : Bool :=
  pyIn "debt" (reasonText fd) || pyIn "consolidat" (reasonText fd)

/-- The refinance/consolidation override of the effective loan amount in
`ask_structured`: current balance + consolidated credit-card limit +
consolidated personal loans + cash-out (no `cash_out_amount` field, so 0). -/
def consolLoan (form_type : String) (fd : FormData) (la0 : ℚ) : Except String ℚ :=
  if form_type ∈ refiFormTypes then
    if is_consolidating fd then
      ebindQ (resolveChain fd ["current_loan_balance"]) fun current_balance =>
      ebindQ (resolveChain fd ["credit_card_limit_total"]) fun cc_to_consolidate =>
      ebindQ (resolveChain fd ["personal_loans_balance"]) fun pl_to_consolidate =>
      .ok (current_balance + cc_to_consolidate + pl_to_consolidate + 0)
    else .ok la0
  else .ok la0

/-- The metric-computation fragment of `ask_structured` (`main.py`): resolve
the loan amount, property value, income and liability fields through their
`or`-chains, apply the refinance/debt-consolidation override, and compute LVR,
total debt and DTI exactly as the handler does. -/
def computeMetrics (form_type : String) (fd : FormData) : Except String Metrics :=
  ebind (resolveChain fd
      ["loan_amount", "current_loan_balance", "construction_loan_amount",
       "loan_amount_requested"]) fun la0 =>
  ebind (resolveChain fd
      ["property_value", "purchase_price", "estimated_property_value",
       "security_property_value", "estimated_completion_value"]) fun pv =>
  ebind (consolLoan form_type fd la0) fun la =>
  let lvr := calculate_lvr la pv
  ebind (resolveChain fd
      ["total_income_annual", "total_income", "combined_income_annual",
       "annual_rental_income", "annual_business_revenue",
       "net_profit_before_tax"]) fun annual_income =>
  ebind (resolveChain fd ["credit_card_limit_total", "credit_card_limit"]) fun credit_card_debt =>
  ebind (resolveChain fd ["personal_loans_balance"]) fun personal_loan_debt =>
  ebind (resolveChain fd ["car_loan_balance"]) fun car_loan_debt =>
  ebind (resolveChain fd ["other_loan_balance"]) fun other_loan_debt =>
  ebind (resolveChain fd ["help_debt_balance"]) fun help_debt =>
  let total_debt :=
    if form_type ∈ refiFormTypes then
      if is_consolidating fd then la + help_debt
      else la + credit_card_debt + personal_loan_debt + car_loan_debt
        + other_loan_debt + help_debt
    else la + credit_card_debt + personal_loan_debt + car_loan_debt
      + other_loan_debt + help_debt
  let dti := if 0 < annual_income then calculate_dti total_debt annual_income else 0
  .ok ⟨la, pv, annual_income, total_debt, lvr, dti⟩

theorem firstTruthy_null (vs : List Val) :
    firstTruthy (Val.null :: vs) = firstTruthy vs := by
  simp [firstTruthy, truthy]

theorem pyFloat_firstTruthy_num (x : ℚ) (vs : List Val)
    (h : pyFloat (firstTruthy vs) = .ok 0) :
    pyFloat (firstTruthy (Val.num x :: vs)) = .ok x := by
  by_cases hx : x = 0
  · simpa [firstTruthy, truthy, hx] using h
  · simp [firstTruthy, truthy, hx, pyFloat]

theorem pyFloat_firstTruthy_nil : pyFloat (firstTruthy []) = .ok 0 := rfl

theorem ratFloor_eq_floor (q : ℚ) : ratFloor q = ⌊q⌋ := by
  rw [Rat.floor_def, ratFloor, Int.fdiv_eq_ediv _ (by exact_mod_cast Nat.zero_le q.den)]

theorem roundHalfEven_eq_floor (q : ℚ) (h : q - (⌊q⌋ : ℚ) < 1 / 2) :
    roundHalfEven q = ⌊q⌋ := by
  unfold roundHalfEven
  rw [ratFloor_eq_floor]
  exact if_pos h

theorem round2_eval (q : ℚ) (n : Int) (hfl : ⌊q * 100⌋ = n)
    (hfr : q * 100 - (n : ℚ) < 1 / 2) : round2 q = (n : ℚ) / 100 := by
  rw [round2, roundHalfEven_eq_floor _ (by rw [hfl]; exact hfr), hfl]

/-- The refinance-consolidation scenario record of the spec. -/
def refiFd (cb cc pl pv help : ℚ) (reason : String) : FormData :=
  [("current_loan_balance", .num cb), ("credit_card_limit_total", .num cc),
   ("personal_loans_balance", .num pl), ("reason_for_refinance", .str reason),
   ("estimated_property_value", .num pv), ("help_debt_balance", .num help)]

theorem is_consolidating_refiFd (cb cc pl pv help : ℚ) (reason : String)
    (h : pyIn "debt" (pyLower reason) = true ∨ pyIn "consolidat" (pyLower reason) = true) :
    is_consolidating (refiFd cb cc pl pv help reason) = true := by
  have hreason : reasonText (refiFd cb cc pl pv help reason) = pyLower reason := by
    simp [reasonText, refiFd, fdGetD, List.lookup, pyStr]
  rcases h with h | h <;> simp [is_consolidating, hreason, h]

/-- Body of the consolidation branch, evaluated at the guard's own string
"refinance": had the guard `form_type_val in ["refinance", "cashout_refinance"]`
matched, the effective loan amount would be current balance + credit-card
limit + personal loans (+ cash-out 0), total debt that amount plus HELP debt,
and the spec scenario would give 423000 / LVR 56.4 / total debt 423000.
`FormType.value` never produces "refinance" (see
`refinance_consolidation_unreachable`), so this computation is dead code for
a real refinance application. -/
theorem refinance_consolidation_metrics (cb cc pl pv help : ℚ) (reason : String)
    (hcons : pyIn "debt" (pyLower reason) = true ∨
      pyIn "consolidat" (pyLower reason) = true) :
    computeMetrics "refinance" (refiFd cb cc pl pv help reason) =
      .ok ⟨cb + cc + pl, pv, 0, cb + cc + pl + help,
        calculate_lvr (cb + cc + pl) pv, 0⟩ ∧
    computeMetrics "refinance"
        [("current_loan_balance", .num 400000), ("credit_card_limit_total", .num 15000),
         ("personal_loans_balance", .num 8000),
         ("reason_for_refinance", .str "Debt Consolidation"),
         ("estimated_property_value", .num 750000)] =
      .ok ⟨423000, 750000, 0, 423000, 56.4, 0⟩ := by
  constructor
  · have hc := is_consolidating_refiFd cb cc pl pv help reason hcons
    simp only [refiFd] at hc
    simp [computeMetrics, resolveChain, refiFd, fdGet, List.lookup, consolLoan,
      refiFormTypes, hc, ebind, ebindQ, firstTruthy_null, pyFloat_firstTruthy_num,
      pyFloat_firstTruthy_nil]
  · have hc : is_consolidating
        [("current_loan_balance", .num 400000), ("credit_card_limit_total", .num 15000),
         ("personal_loans_balance", .num 8000),
         ("reason_for_refinance", .str "Debt Consolidation"),
         ("estimated_property_value", .num 750000)] = true := by decide
    have hlvr : calculate_lvr (423000 : ℚ) 750000 = 56.4 := by
      rw [calculate_lvr, if_neg (by norm_num),
        round2_eval _ 5640 (by norm_num) (by norm_num)]
      norm_num
    simp [computeMetrics, resolveChain, fdGet, List.lookup, consolLoan,
      refiFormTypes, hc, ebind, ebindQ, firstTruthy_null, pyFloat_firstTruthy_num,
      pyFloat_firstTruthy_nil]
    norm_num [hlvr]

/-- `refinance_consolidation_metrics` instantiated at the spec scenario. -/
theorem refinance_consolidation_metrics_witness :
    computeMetrics "refinance" (refiFd 400000 15000 8000 750000 0 "Debt Consolidation") =
      .ok ⟨423000, 750000, 0, 423000, calculate_lvr 423000 750000, 0⟩ := by
  have h := (refinance_consolidation_metrics 400000 15000 8000 750000 0
    "Debt Consolidation" (.inl (by decide))).1
  norm_num at h
  exact h

/-- The `FormType` enum of `main.py` (lines 47-53). -/
inductive FormType where
  | purchase : FormType
  | refinance : FormType
  | smsf_purchase : FormType
  | construction : FormType
  | cashout_refinance : FormType
  | commercial : FormType
deriving DecidableEq, Repr

/-- `FormType.<member>.value`: the string value of each enum member. -/
def FormType.value : FormType → String
  | .purchase => "purchase_application"
  | .refinance => "refinance_application"
  | .smsf_purchase => "smsf_loan_purchase"
  | .construction => "construction_loan"
  | .cashout_refinance => "cashout_refinance"
  | .commercial => "commercial_property_loan"

/-- The metric computation as the handler actually invokes it:
`form_type_val = payload.form_type.value` (`main.py` line 1558), so only an
enum member's string value ever reaches the form-type comparisons. -/
def askMetrics (ft : FormType) (fd : FormData) : Except String Metrics :=
  computeMetrics ft.value fd

/-- C4: the claimed consolidation behaviour is a code bug. A real refinance
application carries `FormType.refinance`, whose value is
"refinance_application" — never "refinance" — so the guard
`form_type_val in ["refinance", "cashout_refinance"]` is false and the
consolidation override is unreachable for refinance applications. On the spec
scenario the program keeps loan amount 400000 and computes LVR 53.33, not the
claimed 423000 / 56.4 (the card and personal-loan debts re-enter total debt
only as ordinary liabilities, so total debt is still 423000). -/
theorem refinance_consolidation_unreachable :
    FormType.refinance.value = "refinance_application" ∧
    (∀ ft : FormType, (ft.value == "refinance") = false) ∧
    decide ("refinance_application" ∈ refiFormTypes) = false ∧
    askMetrics FormType.refinance
        [("current_loan_balance", .num 400000), ("credit_card_limit_total", .num 15000),
         ("personal_loans_balance", .num 8000),
         ("reason_for_refinance", .str "Debt Consolidation"),
         ("estimated_property_value", .num 750000)] =
      .ok ⟨400000, 750000, 0, 423000, 53.33, 0⟩ := by
  refine ⟨rfl, ?_, by decide, ?_⟩
  · intro ft
    cases ft <;> rfl
  · have hlvr : calculate_lvr (400000 : ℚ) 750000 = 53.33 := by
      rw [calculate_lvr, if_neg (by norm_num),
        round2_eval _ 5333 (by norm_num) (by norm_num)]
      norm_num
    simp [askMetrics, FormType.value, computeMetrics, resolveChain, fdGet,
      List.lookup, consolLoan, refiFormTypes, ebind, ebindQ, firstTruthy_null,
      pyFloat_firstTruthy_num, pyFloat_firstTruthy_nil]
    norm_num [hlvr]

/-- C5 counterexample: a present, non-empty, non-numeric `loan_amount` does
not fall through the `or`-chain — it is truthy, wins the chain, and `float`
raises `ValueError`, which the metric computation propagates. -/
theorem metric_coercion_raises :
    computeMetrics "purchase"
        [("loan_amount", .str "abc"), ("property_value", .num 500000)] =
      .error "ValueError" ∧
    truthy (.str "abc") = true ∧ parseDecimal "abc" = none := by
  refine ⟨?_, by decide, by decide⟩
  have : resolveChain
      [("loan_amount", Val.str "abc"), ("property_value", Val.num 500000)]
      ["loan_amount", "current_loan_balance", "construction_loan_amount",
       "loan_amount_requested"] = .error "ValueError" := by decide
  simp [computeMetrics, ebind, this]

/-- C5 amended: a falsy field value (absent/`None`, empty string, numeric 0)
falls through the `or`-chain to the next candidate and ultimately to the
literal 0, never raising; but a present non-empty string that is not numeric
is selected by the chain and `float` raises `ValueError`, which propagates out
of the metric computation instead of being treated as absent. -/
theorem metric_coercion_amended (vs : List Val) (s : String) :
    firstTruthy (Val.null :: vs) = firstTruthy vs ∧
    firstTruthy (Val.str "" :: vs) = firstTruthy vs ∧
    firstTruthy (Val.num 0 :: vs) = firstTruthy vs ∧
    firstTruthy [] = Val.num 0 ∧
    (s ≠ "" → parseDecimal s = none →
      pyFloat (firstTruthy (Val.str s :: vs)) = .error "ValueError") ∧
    computeMetrics "purchase"
        [("loan_amount", .str "abc"), ("property_value", .num 500000)] =
      .error "ValueError" := by
  refine ⟨firstTruthy_null vs, by simp [firstTruthy, truthy], ?_, rfl, ?_, ?_⟩
  · simp [firstTruthy, truthy]
  · intro hs hparse
    simp [firstTruthy, truthy, hs, pyFloat, hparse]
  · exact (metric_coercion_raises).1

/-- Witness for `metric_coercion_amended` at `s = "abc"`, `vs = []`. -/
theorem metric_coercion_amended_witness :
    pyFloat (firstTruthy [Val.str "abc"]) = .error "ValueError" :=
  (metric_coercion_amended [] "abc").2.2.2.2.1 (by decide) (by decide)

/-- C6: `calculate_lvr` returns 0 whenever the property value is ≤ 0 and
`calculate_dti` returns 0 whenever the annual income is ≤ 0, without raising
or dividing by zero; the rounded division branch is reached only under a
strictly positive denominator. -/
theorem lvr_dti_zero_guard :
    (∀ la pv : ℚ, pv ≤ 0 → calculate_lvr la pv = 0) ∧
    (∀ td inc : ℚ, inc ≤ 0 → calculate_dti td inc = 0) ∧
    (∀ la pv : ℚ, 0 < pv → calculate_lvr la pv = round2 (la / pv * 100)) ∧
    (∀ td inc : ℚ, 0 < inc → calculate_dti td inc = round2 (td / inc)) := by
  refine ⟨fun la pv h => by simp [calculate_lvr, h],
    fun td inc h => by simp [calculate_dti, h],
    fun la pv h => by simp [calculate_lvr, not_le.mpr h],
    fun td inc h => by simp [calculate_dti, not_le.mpr h]⟩

/-- Witness for `lvr_dti_zero_guard` at property value 0, income -5,
and positive denominators. -/
theorem lvr_dti_zero_guard_witness :
    calculate_lvr 500000 0 = 0 ∧ calculate_dti 100000 (-5) = 0 ∧
    calculate_lvr 1 4 = round2 ((1 : ℚ) / 4 * 100) ∧
    calculate_dti 9 2 = round2 ((9 : ℚ) / 2) :=
  ⟨lvr_dti_zero_guard.1 500000 0 (by norm_num),
   lvr_dti_zero_guard.2.1 100000 (-5) (by norm_num),
   lvr_dti_zero_guard.2.2.1 1 4 (by norm_num),
   lvr_dti_zero_guard.2.2.2 9 2 (by norm_num)⟩

/-- The purchase scenario record of the spec. -/
def purchaseFd (la pv inc cc pl car other help : ℚ) : FormData :=
  [("loan_amount", .num la), ("property_value", .num pv),
   ("total_income_annual", .num inc), ("credit_card_limit_total", .num cc),
   ("personal_loans_balance", .num pl), ("car_loan_balance", .num car),
   ("other_loan_balance", .num other), ("help_debt_balance", .num help)]

/-- C7: for a non-refinance (purchase) application the total debt is the
resolved loan amount plus every present existing-liability field; on the spec
scenario (loan 550000, property 750000, income 120000, no liabilities) the
LVR is 73.33 and the DTI is round(550000/120000, 2) = 4.58. -/
theorem purchase_metrics (la pv inc cc pl car other help : ℚ) :
    computeMetrics "purchase" (purchaseFd la pv inc cc pl car other help) =
      .ok ⟨la, pv, inc, la + cc + pl + car + other + help,
        calculate_lvr la pv,
        calculate_dti (la + cc + pl + car + other + help) inc⟩ ∧
    computeMetrics "purchase"
        [("loan_amount", .num 550000), ("property_value", .num 750000),
         ("total_income_annual", .num 120000)] =
      .ok ⟨550000, 750000, 120000, 550000, 73.33, 4.58⟩ := by
  constructor
  · simp [computeMetrics, resolveChain, purchaseFd, fdGet, List.lookup, consolLoan,
      refiFormTypes, ebind, ebindQ, firstTruthy_null, pyFloat_firstTruthy_num,
      pyFloat_firstTruthy_nil]
    by_cases hinc : 0 < inc
    · simp [hinc]
    · simp [hinc, calculate_dti, not_lt.mp hinc]
  · have hne : ¬ "purchase" ∈ refiFormTypes := by decide
    have hlvr : calculate_lvr (550000 : ℚ) 750000 = 73.33 := by
      rw [calculate_lvr, if_neg (by norm_num),
        round2_eval _ 7333 (by norm_num) (by norm_num)]
      norm_num
    have hdti : calculate_dti (550000 : ℚ) 120000 = 4.58 := by
      rw [calculate_dti, if_neg (by norm_num),
        round2_eval _ 458 (by norm_num) (by norm_num)]
      norm_num
    simp [computeMetrics, resolveChain, fdGet, List.lookup, consolLoan,
      refiFormTypes, ebind, ebindQ, firstTruthy_null, pyFloat_firstTruthy_num,
      pyFloat_firstTruthy_nil]
    norm_num [hlvr, hdti]

/-! ### The query synthesizer `generate_targeted_queries` (`ai_pipeline.py`) -/

/-- Response parsing of `generate_targeted_queries`:
`[q.strip() for q in response.content.split('\n') if q.strip() and len(q.strip()) > 10]`. -/
def parseQueries (content : String) : List String :=
  ((pySplit content '\n').map pyStrip).filter
    (fun t => (!(t == "")) && decide (10 < t.length))

/-- The generated queries: parsed from a successful generation response,
`[]` when the generation call raised (`except Exception: queries = []`). -/
def genQueries (genResult : Except String String) : List String :=
  match genResult with
  | .ok content => parseQueries content
  | .error _ => []

/-- The three deterministic fallback `base_queries`, templated from the
application-type tag and the loan amount. -/
def base_queries (form_type loan_amount : String) : List String :=
  ["minimum loan amount requirements " ++ form_type,
   "lending criteria " ++ loan_amount ++ " loan",
   "lender comparison " ++ form_type]

/-- `generate_targeted_queries`: generated queries first, fallbacks appended,
then `all_queries[:10]`. The generation call is abstracted as its outcome
`genResult`; `loan_amount` is the string rendering of the resolved amount. -/
def generate_targeted_queries (genResult : Except String String)
    (form_type loan_amount : String) : List String :=
  (genQueries genResult ++ base_queries form_type loan_amount).take 10

theorem base_queries_ne_empty (form_type loan_amount q : String)
    (hq : q ∈ base_queries form_type loan_amount) : q ≠ "" := by
  intro hempty
  have hdata := congrArg String.data hempty
  simp only [base_queries, List.mem_cons] at hq
  rcases hq with rfl | rfl | rfl | h
  · rw [String.data_append] at hdata
    exact absurd (List.append_eq_nil.mp (hdata.trans rfl)).1 (by decide)
  · rw [String.data_append, String.data_append] at hdata
    exact absurd (List.append_eq_nil.mp (hdata.trans rfl)).2 (by decide)
  · rw [String.data_append] at hdata
    exact absurd (List.append_eq_nil.mp (hdata.trans rfl)).1 (by decide)
  · simp at h

/-- C8: `generate_targeted_queries` always appends the three deterministic
fallback queries after the generated ones and truncates the combination to at
most 10 entries (so fallbacks can be dropped when generation alone yields 10);
when the generation call fails it returns exactly the three fallbacks — at
least 3 queries, all non-empty. -/
theorem generate_queries_fallback (g : Except String String)
    (form_type loan_amount : String) :
    generate_targeted_queries g form_type loan_amount =
      (genQueries g ++ base_queries form_type loan_amount).take 10 ∧
    (base_queries form_type loan_amount).length = 3 ∧
    (generate_targeted_queries g form_type loan_amount).length ≤ 10 ∧
    (∀ e, generate_targeted_queries (.error e) form_type loan_amount =
      base_queries form_type loan_amount) ∧
    (∀ e, 3 ≤ (generate_targeted_queries (.error e) form_type loan_amount).length) ∧
    (∀ e, ∀ q ∈ generate_targeted_queries (.error e) form_type loan_amount, q ≠ "") := by
  have herr : ∀ e : String,
      generate_targeted_queries (.error e) form_type loan_amount =
        base_queries form_type loan_amount := by
    intro e
    simp [generate_targeted_queries, genQueries, base_queries]
  refine ⟨rfl, rfl, ?_, herr, ?_, ?_⟩
  · simp [generate_targeted_queries]
  · intro e
    rw [herr e]
    simp [base_queries]
  · intro e q hq
    rw [herr e] at hq
    exact base_queries_ne_empty form_type loan_amount q hq

/-- Witness for `generate_queries_fallback`: a failed generation for a
purchase form still yields the three non-empty fallback queries. -/
theorem generate_queries_fallback_witness :
    generate_targeted_queries (.error "rate limited") "purchase" "550000" =
      base_queries "purchase" "550000" ∧
    3 ≤ (generate_targeted_queries (.error "rate limited") "purchase" "550000").length ∧
    ("minimum loan amount requirements purchase" ∈
        generate_targeted_queries (.error "rate limited") "purchase" "550000" →
      "minimum loan amount requirements purchase" ≠ "") :=
  ⟨(generate_queries_fallback (.error "rate limited") "purchase" "550000").2.2.2.1
      "rate limited",
   (generate_queries_fallback (.error "rate limited") "purchase" "550000").2.2.2.2.1
      "rate limited",
   (generate_queries_fallback (.error "rate limited") "purchase" "550000").2.2.2.2.2
      "rate limited" _⟩

/-- C9 counterexample: the trimmed line "1234567890" has length exactly 10,
which the claim says is kept, yet the parser discards it (the code keeps only
lines with `len(q.strip()) > 10`, a strict comparison). -/
theorem parse_line_length10_dropped :
    parseQueries "1234567890" = [] ∧
    pyStrip "1234567890" = "1234567890" ∧
    ("1234567890" : String).length = 10 := by
  refine ⟨by decide, by decide, by decide⟩

/-- C9 amended: the parser splits the response on line breaks, trims each
line, and discards exactly those trimmed lines of length at most 10 — the
threshold comparison is strict, so a trimmed line is kept iff its length is
11 or more. -/
theorem parse_line_filter (content : String) :
    parseQueries content =
      ((pySplit content '\n').map pyStrip).filter (fun t => decide (10 < t.length)) ∧
    (∀ t ∈ (pySplit content '\n').map pyStrip,
      10 < t.length → t ∈ parseQueries content) ∧
    (∀ t ∈ (pySplit content '\n').map pyStrip,
      t.length ≤ 10 → t ∉ parseQueries content) := by
  have hcond : ∀ t : String,
      ((!(t == "")) && decide (10 < t.length)) = decide (10 < t.length) := by
    intro t
    by_cases h10 : 10 < t.length
    · have hne : ¬ t = "" := by
        intro h
        rw [h] at h10
        simp at h10
      simp [h10, hne]
    · simp [h10]
  have hfilter : parseQueries content =
      ((pySplit content '\n').map pyStrip).filter (fun t => decide (10 < t.length)) := by
    rw [parseQueries]
    exact List.filter_congr (fun t _ => hcond t)
  refine ⟨hfilter, ?_, ?_⟩
  · intro t ht h10
    rw [hfilter]
    exact List.mem_filter.mpr ⟨ht, by simpa using h10⟩
  · intro t ht hle hmem
    rw [hfilter] at hmem
    have := (List.mem_filter.mp hmem).2
    simp at this
    omega

/-- Witness for `parse_line_filter`: an 11-character line is kept, a
10-character one is not. -/
theorem parse_line_filter_witness :
    "12345678901" ∈ parseQueries "12345678901\nshort" ∧
    "1234567890" ∉ parseQueries "1234567890\nlong enough line" :=
  ⟨(parse_line_filter "12345678901\nshort").2.1 "12345678901" (by decide) (by decide),
   (parse_line_filter "1234567890\nlong enough line").2.2 "1234567890"
     (by decide) (by decide)⟩

end LoanRag
